import Mathlib

/-
Verification of the photobooth session orchestration layer.

The definitions below are a shallow embedding of the most complete revision
of the app (the second revision in the repository's main page component):
the countdown state machine (CountdownComponent), the capture executor
(captureAndDisplay), the preview frame loop (CameraPreview / renderFrame),
and the sequence bookkeeping of the Home component (triggerCapture,
startCountdownSequence, handleResetSequence, isSequenceComplete, the print
effect).  Effectful code is modelled by explicit event traces and by a
step relation on a session-state record; timers carry their delay in
milliseconds as data.
-/

set_option maxHeartbeats 1000000

/-- The countdown enum of the source (CountdownStateEnum): the lead-in
phases Three, Two, One, the Triggering phase Cheese, and the idle phase
Clear.  The source enum also declares Print and Reset members which no
switch case handles. -/
inductive CountdownStateEnum where
  | Clear
  | Three
  | Two
  | One
  | Cheese
  | Print
  | Reset
deriving DecidableEq

/-- What one execution of the CountdownComponent effect does for a given
countdown state: whether it invokes captureFunc, and which delayed
transition (next state, delay in ms) it schedules with setTimeout. -/
structure CountdownEffectResult where
  invokesCapture : Bool
  timer : Option (CountdownStateEnum × Nat)
deriving DecidableEq

/-- Shallow embedding of the switch statement in the CountdownComponent
useEffect: Three schedules Two after 1000 ms, Two schedules One, One
schedules Cheese; Cheese invokes captureFunc (without awaiting it) and
concurrently schedules Clear after 1000 ms; Clear (and the unhandled
Print and Reset members) schedule nothing. -/
def countdownEffect : CountdownStateEnum → CountdownEffectResult
  | .Three => ⟨false, some (.Two, 1000)⟩
  | .Two => ⟨false, some (.One, 1000)⟩
  | .One => ⟨false, some (.Cheese, 1000)⟩
  | .Cheese => ⟨true, some (.Clear, 1000)⟩
  | _ => ⟨false, none⟩

/-- The dependency tuple of the CountdownComponent effect that matters for
re-execution: the countdown state and the identity of the captureFunc
callback (triggerCapture is a useCallback whose dependency list includes
capturesCompleted, so its identity changes whenever capturesCompleted
changes; setCountdownState is stable and omitted). -/
structure CountdownDeps where
  countdownState : CountdownStateEnum
  captureFuncId : Nat
deriving DecidableEq

/-- Helper for the effect re-execution semantics: given the dependency
value of the previous effect execution, keep from the remaining render
history exactly those renders whose dependencies differ from the previous
execution (the framework re-runs an effect precisely when its dependency
tuple changed). -/
def execAux {α : Type} [DecidableEq α] (prev : α) : List α → List α
  | [] => []
  | d :: ds => if d = prev then execAux prev ds else d :: execAux d ds

/-- The dependency values at which an effect executes, for a given list of
per-render dependency values: the effect runs at the first render and then
exactly at the renders where the dependencies changed. -/
def effectExecutions {α : Type} [DecidableEq α] : List α → List α
  | [] => []
  | d :: ds => d :: execAux d ds

/-- How many times captureFunc is invoked over a render history of the
CountdownComponent: one invocation per effect execution whose countdown
state is one that invokes capture (the Cheese case of the switch). -/
def captureInvocations (hist : List CountdownDeps) : Nat :=
  ((effectExecutions hist).filter
    (fun d => (countdownEffect d.countdownState).invokesCapture)).length

/-- Shallow embedding of the print effect body of Home: when
isSequenceComplete is true it schedules triggerPrint on a 500 ms timer
(returning the delay), otherwise it schedules nothing. -/
def printEffect (isComplete : Bool) : Option Nat :=
  if isComplete then some 500 else none

/-- How many print triggers are scheduled over a render history of Home,
where each render contributes its isSequenceComplete value as the
effect dependency: one per effect execution whose dependency is true. -/
def printTriggersScheduled (hist : List Bool) : Nat :=
  ((effectExecutions hist).filter (fun b => (printEffect b).isSome)).length

/-- Observable events of the capture executor captureAndDisplay: setting
the isCapturing flag, the device capture call, the event drain call and
its possible failure, and the fixed settle delay. -/
inductive CaptureEvent where
  | setBusy (b : Bool)
  | deviceCapture
  | drainEvents
  | drainFailed
  | settleDelay (ms : Nat)
deriving DecidableEq

/-- Shallow embedding of captureAndDisplay.  Input: the outcome of the
device capture call (some file, or none for a rejection) and whether the
event drain succeeds.  Output: the returned blob (or null) and the event
trace.  The source sets isCapturing true synchronously before awaiting
captureImageAsFile; on success it drains pending camera events (a drain
failure is only logged); the finally block always waits 500 ms and then
sets isCapturing false; the captured file (or null) is returned. -/
def captureAndDisplay (captureResult : Option Nat) (drainOk : Bool) :
    Option Nat × List CaptureEvent :=
  let entry := [CaptureEvent.setBusy true, CaptureEvent.deviceCapture]
  let fin := [CaptureEvent.settleDelay 500, CaptureEvent.setBusy false]
  match captureResult with
  | some file =>
    (some file,
      entry ++
        (if drainOk then [CaptureEvent.drainEvents]
         else [CaptureEvent.drainEvents, CaptureEvent.drainFailed]) ++ fin)
  | none => (none, entry ++ fin)

/-- Observable events of the preview loop renderFrame: fetching one
preview frame, decoding it, drawing it, the FPS delay (carried as the
exact fraction num/den milliseconds, in the source 1000/24), and
scheduling the next iteration with requestAnimationFrame. -/
inductive PreviewEvent where
  | fetchFrame
  | decodeFrame
  | drawFrame
  | fpsWait (num den : Nat)
  | scheduleNext
deriving DecidableEq

/-- The finally block of the renderFrame try: if the liveness flag is
still set it waits 1000/24 ms and, if the flag is still set after the
wait, schedules the next iteration.  The flag reads are indexed 4 and 5
of the iteration's read sequence. -/
def previewFinally (active : Nat → Bool) : List PreviewEvent :=
  if active 4 then
    PreviewEvent.fpsWait 1000 24 ::
      (if active 5 then [PreviewEvent.scheduleNext] else [])
  else []

/-- Shallow embedding of one renderFrame iteration.  The liveness flag
(an isActive ref that asynchronous code re-reads) is modelled as a
function from read index to Bool: read 0 is the entry guard, read 1
guards the reschedule on the skip path, reads 2 and 3 are the checks
after the fetch and decode awaits, reads 4 and 5 are in the finally
block.  The other parameters are the conditions of the entry guard
(camera ready, canvas ref available, camera instance present, the
isCapturing prop, which is constant within one closure), whether the
fetch succeeds, and whether the canvas and its 2d context are still
available after decoding.  The skip path reschedules immediately and
never reaches the finally block; the fetch path always ends in the
finally block. -/
def renderFrame (active : Nat → Bool)
    (cameraReady canvasAvail cameraAvail isCapturing fetchOk
      canvasStillAvail ctxOk : Bool) : List PreviewEvent :=
  if !(active 0) || !cameraReady || !canvasAvail || !cameraAvail ||
      isCapturing then
    if active 1 then [PreviewEvent.scheduleNext] else []
  else
    PreviewEvent.fetchFrame ::
      (if fetchOk then
        if !(active 2) || isCapturing then previewFinally active
        else
          PreviewEvent.decodeFrame ::
            (if !(active 3) || isCapturing then previewFinally active
             else if !canvasStillAvail || !ctxOk then previewFinally active
             else PreviewEvent.drawFrame :: previewFinally active)
      else previewFinally active)

/-- The preview loop: runs renderFrame iterations while each iteration
reschedules itself, for at most the given number of iterations; the
liveness flag readings may differ per iteration (first index) and per
read point (second index). -/
def runPreviewLoop (active : Nat → Nat → Bool)
    (cameraReady canvasAvail cameraAvail isCapturing fetchOk
      canvasStillAvail ctxOk : Bool) : Nat → List PreviewEvent
  | 0 => []
  | n + 1 =>
    let tr := renderFrame (active n) cameraReady canvasAvail cameraAvail
      isCapturing fetchOk canvasStillAvail ctxOk
    tr ++ (if PreviewEvent.scheduleNext ∈ tr then
      runPreviewLoop active cameraReady canvasAvail cameraAvail isCapturing
        fetchOk canvasStillAvail ctxOk n
    else [])

/-- The mutable state owned by the CameraPreview effect: the isActive
liveness ref and the pending requestAnimationFrame handle. -/
structure PreviewLoopHandle where
  isActive : Bool
  animationFrame : Option Nat
deriving DecidableEq

/-- Shallow embedding of the CameraPreview effect cleanup: it clears the
liveness flag and cancels any outstanding scheduled iteration. -/
def previewCleanup (_h : PreviewLoopHandle) : PreviewLoopHandle :=
  { isActive := false, animationFrame := none }

/-- The fixed number of captures of one sequence (totalCapturesNeeded in
the source). -/
def totalCapturesNeeded : Nat := 3

/-- The buffer append of the success branch of triggerCapture:
setCapturedImageBlobs appends the new blob at the end of the previous
list, with no capacity check. -/
def appendBlob (prevBlobs : List Nat) (newBlob : Nat) : List Nat :=
  prevBlobs ++ [newBlob]

/-- The session state of the Home component: the countdown state, the
captured image blobs (abstracted to identifiers), the capturesCompleted
counter, the previewVisibility flag, plus two bookkeeping fields for
in-flight asynchronous work: capturePending counts the triggerCapture
invocations whose result has not yet been applied (triggerCapture has no
re-entry guard, so more than one can be in flight), and
pendingNextCountdown records whether at least one of the 100 ms
setTimeout calls that restart the countdown at Three after a
mid-sequence successful capture is outstanding. -/
structure SessionState where
  countdownStateVal : CountdownStateEnum
  capturedImageBlobs : List Nat
  capturesCompleted : Nat
  previewVisibility : Bool
  capturePending : Nat
  pendingNextCountdown : Bool
deriving DecidableEq

/-- The initial state of the Home component: countdown Clear, no blobs,
zero captures, preview grid hidden, nothing in flight. -/
def initialSession : SessionState :=
  ⟨CountdownStateEnum.Clear, [], 0, false, 0, false⟩

/-- Shallow embedding of isSequenceComplete (derived state of Home): the
sequence is complete exactly when capturesCompleted and the buffer length
both equal totalCapturesNeeded. -/
def isSequenceComplete (s : SessionState) : Bool :=
  decide (s.capturesCompleted = totalCapturesNeeded) &&
    decide (s.capturedImageBlobs.length = totalCapturesNeeded)

/-- The state update of startCountdownSequence past its guard: clear the
blobs, reset the counter, and start the countdown at Three. -/
def applyStartSequence (s : SessionState) : SessionState :=
  { s with
    capturedImageBlobs := []
    capturesCompleted := 0
    countdownStateVal := CountdownStateEnum.Three }

/-- Shallow embedding of startCountdownSequence including its guard: if
the camera is not ready, or a capture is in flight, or capturesCompleted
is positive, the start signal is ignored; otherwise the sequence starts. -/
def startCountdownSequence (cameraReady isCapturing : Bool)
    (s : SessionState) : SessionState :=
  if !cameraReady || isCapturing || decide (0 < s.capturesCompleted) then s
  else applyStartSequence s

/-- The state update applied when a capture of the success branch of
triggerCapture settles while the countdown is not at Cheese: append the
new blob, increment capturesCompleted, resolve one in-flight capture, and
record the 100 ms countdown restart exactly when the new count is still
below totalCapturesNeeded (an earlier restart timer may still be
outstanding, hence the disjunction).  The changed capturesCompleted
changes the captureFunc identity and re-runs the countdown effect, but
its current case invokes nothing outside Cheese. -/
def applyCaptureSuccess (newBlob : Nat) (s : SessionState) : SessionState :=
  { s with
    capturePending := s.capturePending - 1
    capturedImageBlobs := appendBlob s.capturedImageBlobs newBlob
    capturesCompleted := s.capturesCompleted + 1
    pendingNextCountdown := s.pendingNextCountdown ||
      decide (s.capturesCompleted + 1 < totalCapturesNeeded) }

/-- The state update applied when a capture settles while the countdown
is still at Cheese: the success-branch bookkeeping as above, but the
changed capturesCompleted changes the captureFunc identity, the countdown
effect re-runs its Cheese case and invokes captureFunc again, so the
settled in-flight capture is replaced by a fresh one and the number in
flight is unchanged. -/
def applyCaptureSuccessReinvoke (newBlob : Nat) (s : SessionState) :
    SessionState :=
  { s with
    capturedImageBlobs := appendBlob s.capturedImageBlobs newBlob
    capturesCompleted := s.capturesCompleted + 1
    pendingNextCountdown := s.pendingNextCountdown ||
      decide (s.capturesCompleted + 1 < totalCapturesNeeded) }

/-- The state update of the failure branch of triggerCapture: one
in-flight capture resolves, the countdown state is set to Clear, and
nothing else changes (the source leaves setCapturesCompleted(0) commented
out on this path).  Because the countdown is set to Clear in the same
update, the effect re-run lands in the Clear case and does not re-invoke
capture. -/
def applyCaptureFailure (s : SessionState) : SessionState :=
  { s with
    capturePending := s.capturePending - 1
    countdownStateVal := CountdownStateEnum.Clear }

/-- The state update of the camera-not-ready branch at the top of
triggerCapture: one in-flight capture resolves, the countdown state is
set to Clear, and capturesCompleted is reset to 0 (the blobs are not
cleared on this path).  The countdown is set to Clear in the same update,
so the effect re-run does not re-invoke capture. -/
def applyCaptureNotReady (s : SessionState) : SessionState :=
  { s with
    capturePending := s.capturePending - 1
    countdownStateVal := CountdownStateEnum.Clear
    capturesCompleted := 0 }

/-- Shallow embedding of handleResetSequence: clear the blobs, reset the
counter, return the countdown to Clear, and hide the preview grid. -/
def handleResetSequence (s : SessionState) : SessionState :=
  { s with
    capturedImageBlobs := []
    capturesCompleted := 0
    countdownStateVal := CountdownStateEnum.Clear
    previewVisibility := false }

/-- Shallow embedding of handlePreviewRender (the before-print hook): it
makes the composed image grid visible. -/
def handlePreviewRender (s : SessionState) : SessionState :=
  { s with previewVisibility := true }

/-- The atomic steps of the session, one per handler or timer callback of
the source.  Entry to Cheese invokes captureFunc, adding one in-flight
capture.  A successful capture that settles while the countdown is still
at Cheese changes capturesCompleted and with it the identity of the
captureFunc useCallback, so the countdown effect re-runs its Cheese case
and invokes captureFunc again (captureSuccessReinvoked) — the
re-invocation race of the effect model above; a capture that settles in
any other phase re-runs the effect into a case that invokes nothing
(captureSuccessSettled).  The failure and camera-not-ready branches set
the countdown to Clear in the same update, so their re-run lands in the
Clear case and never re-invokes. -/
inductive SessionStep : SessionState → SessionState → Prop where
  | startSequence (s : SessionState) :
      s.capturesCompleted = 0 → s.capturePending = 0 →
      SessionStep s (applyStartSequence s)
  | tickThree (s : SessionState) :
      s.countdownStateVal = CountdownStateEnum.Three →
      SessionStep s { s with countdownStateVal := CountdownStateEnum.Two }
  | tickTwo (s : SessionState) :
      s.countdownStateVal = CountdownStateEnum.Two →
      SessionStep s { s with countdownStateVal := CountdownStateEnum.One }
  | tickOne (s : SessionState) :
      s.countdownStateVal = CountdownStateEnum.One →
      SessionStep s { s with
        countdownStateVal := CountdownStateEnum.Cheese
        capturePending := s.capturePending + 1 }
  | cheeseHold (s : SessionState) :
      s.countdownStateVal = CountdownStateEnum.Cheese →
      SessionStep s { s with countdownStateVal := CountdownStateEnum.Clear }
  | captureSuccessSettled (s : SessionState) (newBlob : Nat) :
      0 < s.capturePending →
      s.countdownStateVal ≠ CountdownStateEnum.Cheese →
      SessionStep s (applyCaptureSuccess newBlob s)
  | captureSuccessReinvoked (s : SessionState) (newBlob : Nat) :
      0 < s.capturePending →
      s.countdownStateVal = CountdownStateEnum.Cheese →
      SessionStep s (applyCaptureSuccessReinvoke newBlob s)
  | captureFailure (s : SessionState) :
      0 < s.capturePending →
      SessionStep s (applyCaptureFailure s)
  | captureNotReady (s : SessionState) :
      0 < s.capturePending →
      SessionStep s (applyCaptureNotReady s)
  | nextCountdown (s : SessionState) :
      s.pendingNextCountdown = true →
      SessionStep s { s with
        pendingNextCountdown := false
        countdownStateVal := CountdownStateEnum.Three }
  | beforePrint (s : SessionState) :
      isSequenceComplete s = true →
      SessionStep s (handlePreviewRender s)
  | afterPrint (s : SessionState) :
      isSequenceComplete s = true →
      SessionStep s (handleResetSequence s)

/-- The session states reachable from the initial state of Home. -/
inductive ReachableSession : SessionState → Prop where
  | init : ReachableSession initialSession
  | step {s t : SessionState} :
      ReachableSession s → SessionStep s t → ReachableSession t

/-- A concrete state about to capture: the countdown has just entered
Cheese for the first shot of a fresh sequence, one capture in flight. -/
def pendingSession : SessionState :=
  ⟨CountdownStateEnum.Cheese, [], 0, false, 1, false⟩

/-- A concrete mid-sequence state: one capture done, the countdown back
at Cheese for the second shot, one capture in flight. -/
def midSession : SessionState :=
  ⟨CountdownStateEnum.Cheese, [10], 1, false, 1, false⟩

/-- A concrete completed state with a fourth capture in flight: each of
the three captures settled while the countdown was still at Cheese, so
each settlement re-invoked captureFunc. -/
def completeRacePending : SessionState :=
  ⟨CountdownStateEnum.Cheese, [10, 11, 12], 3, false, 1, true⟩

/-- The state after the fourth, re-invoked capture succeeds on top of the
completed sequence: counter and buffer exceed totalCapturesNeeded. -/
def raceOverflowSession : SessionState :=
  ⟨CountdownStateEnum.Cheese, [10, 11, 12, 13], 4, false, 1, true⟩

/-- The first-shot pending state is reachable: start a sequence and let
the three lead-in timers fire; entry to Cheese invokes capture. -/
theorem reachable_pendingSession : ReachableSession pendingSession := by
  have h0 := ReachableSession.init
  have h1 : ReachableSession
      ⟨CountdownStateEnum.Three, [], 0, false, 0, false⟩ :=
    h0.step (SessionStep.startSequence _ rfl rfl)
  have h2 : ReachableSession
      ⟨CountdownStateEnum.Two, [], 0, false, 0, false⟩ :=
    h1.step (SessionStep.tickThree _ rfl)
  have h3 : ReachableSession
      ⟨CountdownStateEnum.One, [], 0, false, 0, false⟩ :=
    h2.step (SessionStep.tickTwo _ rfl)
  exact h3.step (SessionStep.tickOne _ rfl)

/-- The completed state with a fourth capture in flight is reachable:
each of three successive captures settles while the countdown is still at
Cheese (device capture plus event drain faster than the hold timer), so
each settlement re-invokes captureFunc. -/
theorem reachable_completeRacePending :
    ReachableSession completeRacePending := by
  have r1 : ReachableSession
      ⟨CountdownStateEnum.Cheese, [10], 1, false, 1, true⟩ :=
    reachable_pendingSession.step
      (SessionStep.captureSuccessReinvoked _ 10 (by decide) rfl)
  have r2 : ReachableSession
      ⟨CountdownStateEnum.Cheese, [10, 11], 2, false, 1, true⟩ :=
    r1.step (SessionStep.captureSuccessReinvoked _ 11 (by decide) rfl)
  exact r2.step (SessionStep.captureSuccessReinvoked _ 12 (by decide) rfl)

/-- The overflowed state is reachable: the fourth, re-invoked capture
succeeds on top of the completed sequence. -/
theorem reachable_raceOverflow : ReachableSession raceOverflowSession :=
  reachable_completeRacePending.step
    (SessionStep.captureSuccessReinvoked _ 13 (by decide) rfl)

/-- Helper: an effect whose dependency value repeats does not re-execute. -/
theorem execAux_replicate_self {α : Type} [DecidableEq α] (a : α) (k : Nat) :
    execAux a (List.replicate k a) = [] := by
  induction k with
  | zero => rfl
  | succ n ih => simp [List.replicate_succ, execAux, ih]

/-- Helper: repeated unchanged dependency values before a change are
skipped by the effect re-execution semantics. -/
theorem execAux_replicate_append {α : Type} [DecidableEq α] (a : α)
    (k : Nat) (l : List α) :
    execAux a (List.replicate k a ++ l) = execAux a l := by
  induction k with
  | zero => rfl
  | succ n ih => simp [List.replicate_succ, execAux, ih]

/-- Claim C1: the countdown effect advances Three to Two to One to Cheese
in exactly three 1000 ms timer steps, and on Cheese it invokes captureFunc
and concurrently schedules the 1000 ms hold timer to Clear (the timer is
part of the same effect execution, independent of the capture's result, so
the capture is not awaited).  However the capture is not invoked exactly
once per visit: the effect's dependency list contains captureFunc, whose
identity changes whenever capturesCompleted changes, so over a render
history in which the countdown state stays Cheese while the captureFunc
identity changes (which happens whenever a successful capture settles
before the 1000 ms hold timer fires) the effect executes twice and
invokes capture twice within a single Triggering visit; with a stable
identity it is invoked once. -/
theorem countdown_chain_and_double_capture :
    countdownEffect CountdownStateEnum.Three =
      ⟨false, some (CountdownStateEnum.Two, 1000)⟩ ∧
    countdownEffect CountdownStateEnum.Two =
      ⟨false, some (CountdownStateEnum.One, 1000)⟩ ∧
    countdownEffect CountdownStateEnum.One =
      ⟨false, some (CountdownStateEnum.Cheese, 1000)⟩ ∧
    countdownEffect CountdownStateEnum.Cheese =
      ⟨true, some (CountdownStateEnum.Clear, 1000)⟩ ∧
    captureInvocations [⟨CountdownStateEnum.Cheese, 0⟩] = 1 ∧
    captureInvocations
      [⟨CountdownStateEnum.Cheese, 0⟩, ⟨CountdownStateEnum.Cheese, 1⟩] = 2 := by
  decide

/-- Claim C2: the capture executor sets the busy flag to true before the
device capture call, ends every path (success, capture failure, drain
failure) with the fixed 500 ms settle delay followed by clearing the busy
flag, and returns exactly the device capture outcome (the image on
success, null otherwise); in particular no path terminates with the busy
flag left true. -/
theorem captureAndDisplay_busy_discipline (captureResult : Option Nat)
    (drainOk : Bool) :
    (captureAndDisplay captureResult drainOk).1 = captureResult ∧
    (captureAndDisplay captureResult drainOk).2.take 2 =
      [CaptureEvent.setBusy true, CaptureEvent.deviceCapture] ∧
    ∃ l, (captureAndDisplay captureResult drainOk).2 =
      l ++ [CaptureEvent.settleDelay 500, CaptureEvent.setBusy false] := by
  cases captureResult <;> cases drainOk <;> exact ⟨rfl, rfl, _, rfl⟩

/-- Claim C3 (code_bug evidence): the claimed equivalences and bounds —
completion exactly when capturesCompleted = totalCapturesNeeded = buffer
length, with neither ever exceeding totalCapturesNeeded — are violated by
the program: when every capture settles while the countdown is still at
Cheese, each settlement re-invokes captureFunc, a fourth capture runs on
top of the completed sequence, and its success drives both the counter
and the buffer length to totalCapturesNeeded + 1, with the completion
flag back at false.  The theorem exhibits the reachable overflowed state
and the completed-with-capture-in-flight state it passes through. -/
theorem captureRace_overflows_counters :
    ReachableSession raceOverflowSession ∧
    raceOverflowSession.capturesCompleted = totalCapturesNeeded + 1 ∧
    raceOverflowSession.capturedImageBlobs.length =
      totalCapturesNeeded + 1 ∧
    isSequenceComplete raceOverflowSession = false ∧
    isSequenceComplete completeRacePending = true ∧
    0 < completeRacePending.capturePending :=
  ⟨reachable_raceOverflow, by decide, by decide, by decide, by decide,
    by decide⟩

/-- Claim C4: the print effect is edge-triggered: over a render history
consisting of any number of renders while the sequence is incomplete
followed by any positive number of renders while it stays complete,
exactly one print trigger is scheduled (the effect re-executes only when
its isSequenceComplete dependency changes, not once per render), and the
scheduled trigger fires only after a 500 ms settle delay. -/
theorem printTrigger_once_per_completion (n m : Nat) :
    printTriggersScheduled
      (List.replicate n false ++ List.replicate (m + 1) true) = 1 ∧
    printEffect true = some 500 := by
  refine ⟨?_, rfl⟩
  cases n with
  | zero =>
    simp [printTriggersScheduled, effectExecutions, List.replicate_succ,
      execAux_replicate_self, printEffect]
  | succ k =>
    simp [printTriggersScheduled, effectExecutions, List.replicate_succ,
      execAux_replicate_append, execAux_replicate_self, execAux, printEffect]

/-- Counterexample for C6: at the reachable completed state with a
fourth, re-invoked capture in flight, that capture's failure during the
Triggering phase leaves the sequence complete — so the completion print,
scheduled on the completion edge, is not averted by the failure, and a
print does occur after a capture failure during Triggering. -/
theorem captureFailure_at_complete_counterexample :
    ReachableSession completeRacePending ∧
    SessionStep completeRacePending
      (applyCaptureFailure completeRacePending) ∧
    completeRacePending.countdownStateVal = CountdownStateEnum.Cheese ∧
    isSequenceComplete completeRacePending = true ∧
    isSequenceComplete (applyCaptureFailure completeRacePending) = true :=
  ⟨reachable_completeRacePending,
    SessionStep.captureFailure _ (by decide), by decide, by decide,
    by decide⟩

/-- Claim C6 (amended): the failure branch of triggerCapture returns the
countdown to Clear immediately and leaves the buffer and the counter
unchanged (nothing is appended on the failure path); it never changes
completion, so the failure itself triggers no print — a print after a
Triggering-phase failure occurs exactly when the sequence was already
complete beforehand, which only the re-invoked extra capture of the
effect-dependency race makes possible. -/
theorem captureFailure_aborts_preserving (s : SessionState) :
    (applyCaptureFailure s).countdownStateVal = CountdownStateEnum.Clear ∧
    (applyCaptureFailure s).capturedImageBlobs = s.capturedImageBlobs ∧
    (applyCaptureFailure s).capturesCompleted = s.capturesCompleted ∧
    isSequenceComplete (applyCaptureFailure s) = isSequenceComplete s :=
  ⟨rfl, rfl, rfl, rfl⟩

/-- Counterexample for C7: an iteration skipped because the capture-busy
flag is true reschedules the next iteration but performs no FPS wait at
all — the 1000/24 ms delay sits in the finally block of the fetch path,
which the skip path never reaches — contradicting the claim that the loop
waits about 1000/24 ms after every iteration, fetched or skipped. -/
theorem renderFrame_skip_no_wait :
    renderFrame (fun _ => true) true true true true true true true =
      [PreviewEvent.scheduleNext] ∧
    PreviewEvent.fpsWait 1000 24 ∉
      renderFrame (fun _ => true) true true true true true true true := by
  exact ⟨by decide, by decide⟩

/-- Claim C7 (amended): when the session is not ready, or the render
surface is unavailable, or the capture-busy flag is true, the iteration
skips fetch and draw but still schedules the next iteration — immediately,
with no FPS wait; an iteration that passes the guard always ends with the
1000/24 ms wait followed by the rescheduling, whatever the fetch, canvas,
and context outcomes are. -/
theorem renderFrame_skip_schedules_fetch_waits (active : Nat → Bool)
    (hA : ∀ i, active i = true)
    (fetchOk canvasStillAvail ctxOk : Bool) :
    renderFrame active true true true true fetchOk canvasStillAvail ctxOk =
      [PreviewEvent.scheduleNext] ∧
    renderFrame active false true true false fetchOk canvasStillAvail ctxOk =
      [PreviewEvent.scheduleNext] ∧
    renderFrame active true false true false fetchOk canvasStillAvail ctxOk =
      [PreviewEvent.scheduleNext] ∧
    renderFrame active true true false false fetchOk canvasStillAvail ctxOk =
      [PreviewEvent.scheduleNext] ∧
    [PreviewEvent.fpsWait 1000 24, PreviewEvent.scheduleNext] <:+
      renderFrame active true true true false fetchOk canvasStillAvail
        ctxOk := by
  have ha0 := hA 0
  have ha1 := hA 1
  have ha2 := hA 2
  have ha3 := hA 3
  have ha4 := hA 4
  have ha5 := hA 5
  refine ⟨?_, ?_, ?_, ?_, ?_⟩
  · simp [renderFrame, ha0, ha1]
  · simp [renderFrame, ha0, ha1]
  · simp [renderFrame, ha0, ha1]
  · simp [renderFrame, ha0, ha1]
  · cases fetchOk with
    | false =>
      exact ⟨[PreviewEvent.fetchFrame],
        by simp [renderFrame, previewFinally, ha0, ha2, ha3, ha4, ha5]⟩
    | true =>
      cases canvasStillAvail with
      | false =>
        exact ⟨[PreviewEvent.fetchFrame, PreviewEvent.decodeFrame],
          by simp [renderFrame, previewFinally, ha0, ha2, ha3, ha4, ha5]⟩
      | true =>
        cases ctxOk with
        | false =>
          exact ⟨[PreviewEvent.fetchFrame, PreviewEvent.decodeFrame],
            by simp [renderFrame, previewFinally, ha0, ha2, ha3, ha4, ha5]⟩
        | true =>
          exact ⟨[PreviewEvent.fetchFrame, PreviewEvent.decodeFrame,
              PreviewEvent.drawFrame],
            by simp [renderFrame, previewFinally, ha0, ha2, ha3, ha4, ha5]⟩

/-- Witness for the amended C7 with the liveness flag held true. -/
theorem renderFrame_skip_schedules_fetch_waits_witness :
    renderFrame (fun _ => true) true true true true true true true =
      [PreviewEvent.scheduleNext] ∧
    renderFrame (fun _ => true) false true true false true true true =
      [PreviewEvent.scheduleNext] ∧
    renderFrame (fun _ => true) true false true false true true true =
      [PreviewEvent.scheduleNext] ∧
    renderFrame (fun _ => true) true true false false true true true =
      [PreviewEvent.scheduleNext] ∧
    [PreviewEvent.fpsWait 1000 24, PreviewEvent.scheduleNext] <:+
      renderFrame (fun _ => true) true true true false true true true :=
  renderFrame_skip_schedules_fetch_waits (fun _ => true) (fun _ => rfl)
    true true true

/-- Claim C8: once the liveness flag reads false at every checkpoint
(teardown clears it permanently), the preview loop performs no fetch,
decode, draw, wait, or rescheduling at all — its event trace is frozen
empty for any number of iterations — and the effect cleanup clears the
flag and cancels the outstanding scheduled iteration. -/
theorem preview_teardown_freezes (active : Nat → Nat → Bool)
    (h : ∀ i j, active i j = false)
    (cameraReady canvasAvail cameraAvail isCapturing fetchOk
      canvasStillAvail ctxOk : Bool) (n : Nat) (hd : PreviewLoopHandle) :
    runPreviewLoop active cameraReady canvasAvail cameraAvail isCapturing
      fetchOk canvasStillAvail ctxOk n = [] ∧
    previewCleanup hd = ⟨false, none⟩ := by
  refine ⟨?_, rfl⟩
  cases n with
  | zero => rfl
  | succ k => simp [runPreviewLoop, renderFrame, h]

/-- Witness for C8 after teardown, with a pending scheduled frame. -/
theorem preview_teardown_freezes_witness :
    runPreviewLoop (fun _ _ => false) true true true false true true true 5
      = [] ∧
    previewCleanup ⟨true, some 7⟩ = ⟨false, none⟩ :=
  preview_teardown_freezes (fun _ _ => false) (fun _ _ => rfl) true true
    true false true true true 5 ⟨true, some 7⟩

/-- Claim C9 (code_bug evidence): the buffer append of the source is
unconditional: appending to a buffer already holding totalCapturesNeeded
images is not rejected — it yields a longer buffer — and the program
reaches a state in which exactly that at-capacity append has happened
(the fourth, re-invoked capture of the effect-dependency race), with the
new image at the end, driving the buffer length to
totalCapturesNeeded + 1. -/
theorem appendRace_exceeds_capacity :
    appendBlob [10, 11, 12] 13 ≠ [10, 11, 12] ∧
    (appendBlob [10, 11, 12] 13).length = totalCapturesNeeded + 1 ∧
    ReachableSession raceOverflowSession ∧
    raceOverflowSession.capturedImageBlobs = appendBlob [10, 11, 12] 13 :=
  ⟨by decide, by decide, reachable_raceOverflow, by decide⟩

/-- Claim C10: the capture-failure branch preserves capturesCompleted and
the buffer (only the countdown is returned to Clear), and the start
signal is a no-op whenever capturesCompleted is positive — so a failed
mid-sequence session cannot be restarted by the start signal alone. -/
theorem captureFailure_preserves_counter (s u : SessionState)
    (cameraReady isCapturing : Bool) (h : 0 < u.capturesCompleted) :
    (applyCaptureFailure s).capturesCompleted = s.capturesCompleted ∧
    (applyCaptureFailure s).capturedImageBlobs = s.capturedImageBlobs ∧
    (applyCaptureFailure s).countdownStateVal = CountdownStateEnum.Clear ∧
    startCountdownSequence cameraReady isCapturing u = u := by
  refine ⟨rfl, rfl, rfl, ?_⟩
  unfold startCountdownSequence
  have hd : decide (0 < u.capturesCompleted) = true := decide_eq_true h
  rw [hd]
  simp

/-- Witness for C10 at the mid-sequence state (one capture completed). -/
theorem captureFailure_preserves_counter_witness :
    (applyCaptureFailure midSession).capturesCompleted =
      midSession.capturesCompleted ∧
    (applyCaptureFailure midSession).capturedImageBlobs =
      midSession.capturedImageBlobs ∧
    (applyCaptureFailure midSession).countdownStateVal =
      CountdownStateEnum.Clear ∧
    startCountdownSequence true false midSession = midSession :=
  captureFailure_preserves_counter midSession midSession true false
    (by decide)
